import Mathlib

/-!
Verification of the FlashProxy reverse proxy (Rust, pingora-based) against its
natural-language specification.  The per-request pipeline, the sliding-window
rate limiter, the security predicates, the hot-reload path and the metrics
recording are shallowly embedded as executable Lean definitions translated
from `src/security.rs`, `src/proxy.rs`, `src/main.rs`, `src/configuration.rs`
and `src/metrics.rs`.

Modelling conventions:
- Rust strings and byte strings are `List Char`; a raw header value that may
  fail UTF-8 decoding is an `Option (List Char)` (`none` = undecodable bytes),
  mirroring `std::str::from_utf8(..).unwrap_or("")`.
- `Instant` is an abstract monotonic clock value in `Nat` nanoseconds;
  `saturating_duration_since` is truncated `Nat` subtraction.
- The JWT signature verification performed by the external `jsonwebtoken`
  crate is abstracted as a parameter `jwtVerify : key → token → Bool`;
  the header parsing around it (`Bearer ` prefix, UTF-8 fallback) follows
  `SecurityLayer::check_jwt` literally.
- The `arc_swap` hot-swap cell is modelled as the time-indexed history
  `cell : Nat → Snapshot` of published snapshots; each `self.security.load()`
  site in the source is a read of that history at the instant it executes.
-/

/-- Rust `String` / `&str`, as a list of characters. -/
abbrev Str := List Char

/-- The configuration data carried by a published `SecurityLayer` snapshot
(`security.rs` lines 12-16): the rate-limit ceiling and the JWT secret.
The per-snapshot `rate_limit_store` is modelled separately where a claim
needs it (see `SecurityLayerState`). -/
structure Snapshot where
  rate_limit_per_second : Nat
  jwt_secret : Str
deriving DecidableEq

/-- `BLOCKED_USER_AGENTS` (`security.rs` line 8). -/
def BLOCKED_USER_AGENTS : List Str :=
  [("curl").data, ("python-requests").data, ("wget").data, ("python-urllib").data]

/-- `BLOCKED_PATHS` (`security.rs` line 9). -/
def BLOCKED_PATHS : List Str :=
  [("/.env").data, ("/.git").data, ("/admin").data, ("/.aws").data, ("/.ssh").data]

/-- `PATH_TRAVERSAL` (`security.rs` line 10). -/
def PATH_TRAVERSAL : Str := ("..").data

/-- Rust `str::to_lowercase`, restricted to per-character lowering (all
blocklist entries are ASCII). -/
def toLowerStr (s : Str) : Str := s.map Char.toLower

/-- Rust `str::contains(needle)`: some contiguous occurrence of `needle`. -/
def strContains (hay needle : Str) : Bool :=
  (List.range (hay.length + 1)).any (fun i => needle.isPrefixOf (hay.drop i))

/-- The 1 s sliding window (`Duration::from_secs(1)`) in nanoseconds. -/
def windowNs : Nat := 1000000000

/-- The `retain` step of `check_rate_limit` (`security.rs` lines 50-52):
keep the timestamps `t` with `now.saturating_duration_since(t) < 1 s`. -/
def retainRecent (now : Nat) (ts : List Nat) : List Nat :=
  ts.filter (fun t => now - t < windowNs)

/-- Result of one `check_rate_limit` call: the denial code (`none` = `Ok`)
and the new content of the client's timestamp vector. -/
structure RateResult where
  code : Option Nat
  newTimestamps : List Nat
deriving DecidableEq

/-- `SecurityLayer::check_rate_limit` (`security.rs` lines 36-58) acting on
one client's entry: prune timestamps older than the window, deny with 429
when the retained count reaches the ceiling, otherwise append `now`. -/
def check_rate_limit (limit : Nat) (now : Nat) (ts : List Nat) : RateResult :=
  let kept := retainRecent now ts
  if kept.length ≥ limit then ⟨some 429, kept⟩
  else ⟨none, kept ++ [now]⟩

/-- `SecurityLayer::check_path` (`security.rs` lines 73-85).  The argument is
the raw path bytes: `none` stands for bytes that fail UTF-8 decoding, which
the source replaces by `""` (`unwrap_or("")`). -/
def check_path (raw : Option Str) : Option Nat :=
  let path_str := raw.getD []
  if strContains path_str PATH_TRAVERSAL then some 403
  else
    let path_lower := toLowerStr path_str
    if BLOCKED_PATHS.any (fun blocked => blocked.isPrefixOf path_lower) then some 403
    else none

/-- `SecurityLayer::check_user_agent` (`security.rs` lines 60-71).  The outer
`Option` is header presence; the inner `Option` is UTF-8 decodability of the
(nonempty) value.  A present-but-empty value is `some (some [])` and is
denied; an undecodable value decodes to `""` and then passes the substring
scan. -/
def check_user_agent (user_agent : Option (Option Str)) : Option Nat :=
  match user_agent with
  | none => some 403
  | some (some []) => some 403
  | some b =>
    let ua := toLowerStr (b.getD [])
    if BLOCKED_USER_AGENTS.any (fun blocked => strContains ua (toLowerStr blocked)) then
      some 403
    else none

/-- `SecurityLayer::check_jwt` (`security.rs` lines 88-114).  `jwtVerify`
abstracts the external `jsonwebtoken::decode::<Claims>` call (HS256 signature
and `exp` validation); the surrounding parsing is literal: missing header
denies 401, undecodable bytes become `""`, a value not starting with
`"Bearer "` denies 401, else the 7-character prefix is stripped and the
remainder verified. -/
def check_jwt (jwtVerify : Str → Str → Bool) (key : Str)
    (auth_header : Option (Option Str)) : Option Nat :=
  match auth_header with
  | none => some 401
  | some v =>
    let auth_val := v.getD []
    if (("Bearer ").data).isPrefixOf auth_val then
      let token := auth_val.drop 7
      if jwtVerify key token then none else some 401
    else some 401

/-- pingora `ResponseHeader::insert_header`: replace any header of the same
name, then add the pair. -/
def insert_header (resp : List (Str × Str)) (name value : Str) : List (Str × Str) :=
  resp.filter (fun p => ¬ p.1 = name) ++ [(name, value)]

/-- The `HSTS` constant of `inject_security_headers` (`security.rs` 117). -/
def HSTS : Str := ("max-age=31536000; includeSubDomains; preload").data

/-- The CSP value `default-src 'self'` (`security.rs` 121); the quote
character is spelled via `Char.ofNat 39`. -/
def CSP_VALUE : Str :=
  ("default-src ").data ++ [Char.ofNat 39] ++ ("self").data ++ [Char.ofNat 39]

/-- `SecurityLayer::inject_security_headers` (`security.rs` lines 116-122).
It is a method on the snapshot (`&self`) but reads none of its fields: the
four injected values are constants. -/
def inject_security_headers (_snap : Snapshot) (resp : List (Str × Str)) :
    List (Str × Str) :=
  insert_header
    (insert_header
      (insert_header
        (insert_header resp ("Strict-Transport-Security").data HSTS)
        ("X-Frame-Options").data ("DENY").data)
      ("X-Content-Type-Options").data ("nosniff").data)
    ("Content-Security-Policy").data CSP_VALUE

/-- The data `request_filter` extracts from the inbound `Session`
(`proxy.rs` lines 38-97): method, raw path bytes (`none` = not valid UTF-8),
the optional `User-Agent` and `Authorization` header values (outer `Option`:
header presence; inner: UTF-8 decodability), and the optional client socket
address string. -/
structure Request where
  method : Str
  rawPath : Option Str
  userAgent : Option (Option Str)
  authHeader : Option (Option Str)
  clientAddr : Option Str

/-- The four security predicates, in the order `request_filter` runs them. -/
inductive SecPred
  | rl | path | ua | jwt
deriving DecidableEq

/-- How `request_filter` terminates for one request. -/
inductive Outcome
  /-- `GET /metrics` interception: status, Content-Type, body
  (`proxy.rs` lines 49-84, ends with `Ok(true)`). -/
  | intercepted (status : Nat) (contentType : Str) (body : Str)
  /-- The metrics `encode()` failed: `request_filter` returns `Err`
  (`proxy.rs` lines 52-58) and pingora responds 500. -/
  | errored
  /-- A predicate denied: `respond_error(code)` then `Ok(true)`. -/
  | denied (status : Nat)
  /-- All checks passed: `Ok(false)`, the request goes to `upstream_peer`. -/
  | forwarded
deriving DecidableEq

/-- `true` exactly on the interception outcome. -/
def Outcome.isIntercepted : Outcome → Bool
  | .intercepted _ _ _ => true
  | _ => false

/-- Everything observable about one `request_filter` run: the outcome, how
many times `self.security.load()` ran, the snapshot value it bound (if any),
which predicates were evaluated (in order), and the rate-limit store after
the run.  The store maps a client-address string to its timestamp vector;
an absent `DashMap` entry is the empty list. -/
structure FilterResult where
  outcome : Outcome
  snapshotLoads : Nat
  snapUsed : Option Snapshot
  evaluated : List SecPred
  store : Str → List Nat

/-- The client identity `request_filter` rate-limits on (`proxy.rs` lines
94-97): the string form of the remote socket address, `"unknown"` when the
address is unavailable. -/
def clientIp (r : Request) : Str := r.clientAddr.getD ("unknown").data

/-- `SecureProxy::request_filter` (`proxy.rs` lines 38-128).  Parameters:
`snap` is the snapshot the single `self.security.load()` (line 90) returns;
`jwtVerify` abstracts HS256 verification; `metricsEnc` is the result of
`Metrics::encode` (`none` = encoder error); `now` is the instant of the
rate-limit check; `store` is the rate-limit store the loaded snapshot owns.

Control flow, in source order: the `GET /metrics` interception (before any
snapshot load), then the snapshot load, then rate limit, path, user-agent
and JWT checks, each short-circuiting with `respond_error`; otherwise
`Ok(false)` forwards the request upstream. -/
def request_filter (snap : Snapshot) (jwtVerify : Str → Str → Bool)
    (metricsEnc : Option Str) (now : Nat) (store : Str → List Nat)
    (r : Request) : FilterResult :=
  let path := r.rawPath.getD []
  if path = ("/metrics").data ∧ r.method = ("GET").data then
    match metricsEnc with
    | some body => ⟨.intercepted 200 ("text/plain").data body, 0, none, [], store⟩
    | none => ⟨.errored, 0, none, [], store⟩
  else
    let client_ip := clientIp r
    let rr := check_rate_limit snap.rate_limit_per_second now (store client_ip)
    let store1 := fun c => if c = client_ip then rr.newTimestamps else store c
    match rr.code with
    | some code => ⟨.denied code, 1, some snap, [.rl], store1⟩
    | none =>
      match check_path r.rawPath with
      | some code => ⟨.denied code, 1, some snap, [.rl, .path], store1⟩
      | none =>
        match check_user_agent r.userAgent with
        | some code => ⟨.denied code, 1, some snap, [.rl, .path, .ua], store1⟩
        | none =>
          match check_jwt jwtVerify snap.jwt_secret r.authHeader with
          | some code => ⟨.denied code, 1, some snap, [.rl, .path, .ua, .jwt], store1⟩
          | none => ⟨.forwarded, 1, some snap, [.rl, .path, .ua, .jwt], store1⟩

/-- The snapshot reference `request_filter` takes at `proxy.rs` line 90
(`self.security.load()`), reading the hot-swap cell history at the instant
`t` the statement executes. -/
def request_filter_load (cell : Nat → Snapshot) (t : Nat) : Snapshot := cell t

/-- The snapshot reference `response_filter` takes at `proxy.rs` lines
162-164: a second, independent `self.security.load()` at its own instant. -/
def response_filter_load (cell : Nat → Snapshot) (t : Nat) : Snapshot := cell t

/-- `SecureProxy::response_filter` (`proxy.rs` lines 156-167): load the cell
again and inject the security headers into the upstream response. -/
def response_filter (cell : Nat → Snapshot) (t : Nat)
    (upstream_response : List (Str × Str)) : List (Str × Str) :=
  inject_security_headers (response_filter_load cell t) upstream_response

/-- Rust `u16::to_string` / `usize::to_string` on a status code. -/
def natToDecStr (n : Nat) : Str := (Nat.repr n).data

/-- The metrics registry state, as the multiset (here: list, in recording
order) of counter increments and histogram observations, each tagged with
its `(status, method, path)` label tuple; observations also carry the
observed duration (abstract units). -/
structure MetricsState where
  counters : List (Str × Str × Str)
  observations : List ((Str × Str × Str) × Nat)

/-- `Metrics::record_request` (`metrics.rs` lines 54-62): one
`http_requests_total` increment and one `http_request_duration_seconds`
observation, both labelled `[status.to_string(), method, path]`. -/
def record_request (m : MetricsState) (status : Nat) (method pathLabel : Str)
    (duration : Nat) : MetricsState :=
  let label := (natToDecStr status, method, pathLabel)
  { counters := m.counters ++ [label]
    observations := m.observations ++ [(label, duration)] }

/-- `SecureProxy::logging` (`proxy.rs` lines 169-199), restricted to its
metrics effect: `status_code` is the status actually written
(`session.response_written()`), `0` when none (`unwrap_or(0)`), and
`record_request` is called once with the context's method and path. -/
def logging (m : MetricsState) (response_written : Option Nat)
    (ctxMethod ctxPath : Str) (duration : Nat) : MetricsState :=
  record_request m (response_written.getD 0) ctxMethod ctxPath duration

/-- `GatewayConfig` (`configuration.rs` lines 4-13). -/
structure GatewayConfig where
  listen_port : Nat
  upstream_ips : List Str
  tls_cert_path : Str
  tls_key_path : Str
  rate_limit_per_second : Nat
  jwt_secret : Str
deriving DecidableEq

/-- `ConfigError` (`configuration.rs` lines 43-48), with the error payloads
reduced to their display strings. -/
inductive ConfigError
  | io (msg : Str)
  | parse (msg : Str)
  | validation (msg : Str)
deriving DecidableEq

/-- `GatewayConfig::validate` (`configuration.rs` lines 23-40). -/
def GatewayConfig.validate (c : GatewayConfig) : Except ConfigError Unit :=
  if c.upstream_ips.isEmpty then
    .error (.validation ("upstream_ips must not be empty").data)
  else if c.rate_limit_per_second = 0 then
    .error (.validation ("rate_limit_per_second must be greater than 0").data)
  else if c.jwt_secret.isEmpty then
    .error (.validation ("jwt_secret must not be empty").data)
  else .ok ()

/-- The full `SecurityLayer` (`security.rs` lines 12-16): the two
configuration fields plus the `rate_limit_store` DashMap, the latter as a
total map with `[]` for absent entries. -/
structure SecurityLayerState where
  rate_limit_per_second : Nat
  jwt_secret : Str
  rate_limit_store : Str → List Nat

/-- `SecurityLayer::new` (`security.rs` lines 28-34): stores the ceiling and
the key and creates a FRESH, EMPTY `DashMap::new()` store. -/
def SecurityLayer.new (rate_limit_per_second : Nat) (jwt_secret : Str) :
    SecurityLayerState :=
  { rate_limit_per_second := rate_limit_per_second
    jwt_secret := jwt_secret
    rate_limit_store := fun _ => [] }

/-- What `main` does with the startup configuration. -/
inductive StartupResult
  /-- `std::process::exit(1)` (`main.rs` line 29). -/
  | exited (code : Nat)
  /-- The server proceeds to serve with this initial `SecurityLayer`. -/
  | serving (layer : SecurityLayerState)

/-- The startup path of `main` (`main.rs` lines 20-48): match on the
`GatewayConfig::from_file` result; on `Err`, print and `exit(1)`; on `Ok`,
proceed directly to `SecurityLayer::new(rate, secret)` — `validate` is
never called. -/
def startup (parsed : Except ConfigError GatewayConfig) : StartupResult :=
  match parsed with
  | .error _ => .exited 1
  | .ok c => .serving (SecurityLayer.new c.rate_limit_per_second c.jwt_secret)

/-- One SIGHUP iteration of the reload thread (`main.rs` lines 59-76):
match on the fresh `GatewayConfig::from_file` result; on `Ok`, build a brand
new `SecurityLayer` and store it in the cell (no `validate` call); on `Err`,
log and keep the current layer. -/
def reloadApply (current : SecurityLayerState)
    (parsed : Except ConfigError GatewayConfig) : SecurityLayerState :=
  match parsed with
  | .ok c => SecurityLayer.new c.rate_limit_per_second c.jwt_secret
  | .error _ => current


/-! ## Concrete fixtures for witnesses and counterexamples -/

/-- A JWT verifier that rejects every token (e.g. a key nothing was signed
with). -/
def jvFalse : Str → Str → Bool := fun _ _ => false

/-- An empty rate-limit store: no client has an entry yet. -/
def storeEmpty : Str → List Nat := fun _ => []

/-- A snapshot with ceiling 1. -/
def snapW : Snapshot := ⟨1, ("s3cret").data⟩

/-- A snapshot with ceiling 0. -/
def snap0 : Snapshot := ⟨0, ("s3cret").data⟩

/-- An ordinary proxied request: `GET /x`, a clean user agent, no
`Authorization` header, a known client address. -/
def reqPlain : Request :=
  ⟨("GET").data, some (("/x").data), some (some (("Mozilla/5.0").data)),
    none, some (("10.0.0.1:5000").data)⟩

/-- A metrics scrape: `GET /metrics`. -/
def reqMetrics : Request :=
  ⟨("GET").data, some (("/metrics").data), none, none, none⟩

/-- The snapshot published at startup in the reload scenario. -/
def snapA : Snapshot := ⟨5, ("key-one").data⟩

/-- The snapshot published by a reload. -/
def snapB : Snapshot := ⟨9, ("key-two").data⟩

/-- A hot-swap cell history with one reload: instant 0 still sees `snapA`,
every later instant sees `snapB`. -/
def cellEx : Nat → Snapshot := fun t => if t = 0 then snapA else snapB

/-- A running `SecurityLayer` that has already accepted one request from
client `10.0.0.1:5000` (timestamp 3 in its sliding window). -/
def preReloadLayer : SecurityLayerState :=
  { rate_limit_per_second := 5
    jwt_secret := ("key-one").data
    rate_limit_store := fun c => if c = ("10.0.0.1:5000").data then [3] else [] }

/-- A valid configuration a reload publishes. -/
def reloadedConfig : GatewayConfig :=
  { listen_port := 8443
    upstream_ips := [("1.2.3.4:443").data]
    tls_cert_path := ("cert.pem").data
    tls_key_path := ("key.pem").data
    rate_limit_per_second := 9
    jwt_secret := ("key-two").data }

/-- A configuration that parses but violates validation: the rate-limit
ceiling is 0 (upstreams and secret are fine). -/
def invalidConfig : GatewayConfig :=
  { listen_port := 8443
    upstream_ips := [("127.0.0.1:9000").data]
    tls_cert_path := ("cert.pem").data
    tls_key_path := ("key.pem").data
    rate_limit_per_second := 0
    jwt_secret := ("supersecret").data }

/-! ## Helper lemmas -/

/-- `List.isPrefixOf` in terms of an explicit decomposition. -/
theorem isPrefixOf_iff_exists (l₁ l₂ : Str) :
    l₁.isPrefixOf l₂ = true ↔ ∃ t, l₂ = l₁ ++ t := by
  rw [List.isPrefixOf_iff_prefix]
  constructor
  · rintro ⟨t, ht⟩
    exact ⟨t, ht.symm⟩
  · rintro ⟨t, ht⟩
    exact ⟨t, ht.symm⟩

/-- `strContains` in terms of an explicit decomposition. -/
theorem strContains_iff (hay needle : Str) :
    strContains hay needle = true ↔ ∃ s t, hay = s ++ needle ++ t := by
  unfold strContains
  rw [List.any_eq_true]
  constructor
  · rintro ⟨i, _, hpre⟩
    rw [List.isPrefixOf_iff_prefix] at hpre
    obtain ⟨t, ht⟩ := hpre
    refine ⟨hay.take i, t, ?_⟩
    calc hay = hay.take i ++ hay.drop i := (List.take_append_drop i hay).symm
      _ = hay.take i ++ (needle ++ t) := by rw [ht]
      _ = hay.take i ++ needle ++ t := by rw [List.append_assoc]
  · rintro ⟨s, t, ht⟩
    refine ⟨s.length, ?_, ?_⟩
    · rw [List.mem_range]
      subst ht
      simp only [List.length_append]
      omega
    · rw [List.isPrefixOf_iff_prefix]
      subst ht
      rw [List.append_assoc, List.drop_left]
      exact ⟨t, rfl⟩

/-- A rate-limit check either passes or denies with exactly 429. -/
theorem check_rate_limit_code_cases (limit now : Nat) (ts : List Nat) :
    (check_rate_limit limit now ts).code = none ∨
      (check_rate_limit limit now ts).code = some 429 := by
  simp only [check_rate_limit]
  split
  · right; rfl
  · left; rfl

/-- A passing rate-limit check appends `now` to the pruned entry. -/
theorem check_rate_limit_ok_eq (limit now : Nat) (ts : List Nat)
    (h : (check_rate_limit limit now ts).code = none) :
    check_rate_limit limit now ts = ⟨none, retainRecent now ts ++ [now]⟩ := by
  simp only [check_rate_limit] at h ⊢
  split at h
  · simp at h
  · split
    · simp_all
    · rfl

/-- A denying rate-limit check leaves the pruned entry without appending. -/
theorem check_rate_limit_denied_eq (limit now : Nat) (ts : List Nat)
    (h : (check_rate_limit limit now ts).code ≠ none) :
    check_rate_limit limit now ts = ⟨some 429, retainRecent now ts⟩ ∧
      limit ≤ (retainRecent now ts).length := by
  simp only [check_rate_limit] at h ⊢
  split at h
  · exact ⟨by split <;> simp_all, by assumption⟩
  · simp at h

/-- A path check either passes or denies with exactly 403. -/
theorem check_path_cases (raw : Option Str) :
    check_path raw = none ∨ check_path raw = some 403 := by
  simp only [check_path]
  split
  · right; rfl
  · split
    · right; rfl
    · left; rfl

/-- A user-agent check either passes or denies with exactly 403. -/
theorem check_user_agent_cases (ua : Option (Option Str)) :
    check_user_agent ua = none ∨ check_user_agent ua = some 403 := by
  simp only [check_user_agent]
  split
  · right; rfl
  · right; rfl
  · split
    · right; rfl
    · left; rfl

/-- A JWT check either passes or denies with exactly 401. -/
theorem check_jwt_cases (jv : Str → Str → Bool) (key : Str)
    (auth : Option (Option Str)) :
    check_jwt jv key auth = none ∨ check_jwt jv key auth = some 401 := by
  simp only [check_jwt]
  split
  · right; rfl
  · split
    · split
      · left; rfl
      · right; rfl
    · right; rfl

/-! ## Claim theorems -/

/-- C4: for every ceiling and client entry, `check_rate_limit` first drops
the timestamps `t` with `now - t ≥ 1 s` (saturating subtraction), then
denies with 429 and no append exactly when the retained count has reached
the ceiling, and otherwise appends the current instant and passes — so an
accepted call never leaves more than `limit` timestamps in the window, and
a denied call leaves the (pruned) entry without a new timestamp. -/
theorem check_rate_limit_spec (limit now : Nat) (ts : List Nat) :
    retainRecent now ts = ts.filter (fun t => now - t < windowNs)
    ∧ ((check_rate_limit limit now ts).code = some 429 ↔
        limit ≤ (retainRecent now ts).length)
    ∧ ((check_rate_limit limit now ts).code ≠ some 429 →
        (check_rate_limit limit now ts).code = none)
    ∧ ((check_rate_limit limit now ts).code = some 429 →
        (check_rate_limit limit now ts).newTimestamps = retainRecent now ts)
    ∧ ((check_rate_limit limit now ts).code = none →
        (check_rate_limit limit now ts).newTimestamps
            = retainRecent now ts ++ [now]
          ∧ (check_rate_limit limit now ts).newTimestamps.length ≤ limit) := by
  refine ⟨rfl, ?_, ?_, ?_, ?_⟩
  · simp only [check_rate_limit]
    split
    · simp_all
    · simp_all
  · simp only [check_rate_limit]
    split <;> simp_all
  · simp only [check_rate_limit]
    split <;> simp_all
  · simp only [check_rate_limit]
    split
    · simp_all
    · intro _
      refine ⟨rfl, ?_⟩
      simp only [List.length_append, List.length_cons, List.length_nil]
      omega

/-- Witness for C4 at a concrete ceiling, instant and entry. -/
theorem check_rate_limit_spec_witness :
    retainRecent 5 [0, 3, 5] = [0, 3, 5].filter (fun t => 5 - t < windowNs)
    ∧ ((check_rate_limit 2 5 [0, 3, 5]).code = some 429 ↔
        2 ≤ (retainRecent 5 [0, 3, 5]).length)
    ∧ ((check_rate_limit 2 5 [0, 3, 5]).code ≠ some 429 →
        (check_rate_limit 2 5 [0, 3, 5]).code = none)
    ∧ ((check_rate_limit 2 5 [0, 3, 5]).code = some 429 →
        (check_rate_limit 2 5 [0, 3, 5]).newTimestamps = retainRecent 5 [0, 3, 5])
    ∧ ((check_rate_limit 2 5 [0, 3, 5]).code = none →
        (check_rate_limit 2 5 [0, 3, 5]).newTimestamps
            = retainRecent 5 [0, 3, 5] ++ [5]
          ∧ (check_rate_limit 2 5 [0, 3, 5]).newTimestamps.length ≤ 2) :=
  check_rate_limit_spec 2 5 [0, 3, 5]

/-- C6: `check_path` treats undecodable bytes exactly as the empty string
and denies with 403 precisely when the decoded string contains `..`
anywhere, or its lowercasing starts with one of the blocked prefixes;
otherwise it passes.  The check returns only a status code: the path itself
is never rewritten or normalized. -/
theorem check_path_spec (raw : Option Str) :
    (check_path raw = some 403 ↔
      ((∃ s t, raw.getD [] = s ++ PATH_TRAVERSAL ++ t)
        ∨ ∃ b ∈ BLOCKED_PATHS, ∃ t, toLowerStr (raw.getD []) = b ++ t))
    ∧ (check_path raw ≠ some 403 → check_path raw = none)
    ∧ check_path none = check_path (some []) := by
  have hmain : check_path raw = some 403 ↔
      (strContains (raw.getD []) PATH_TRAVERSAL = true ∨
        (BLOCKED_PATHS.any fun b => b.isPrefixOf (toLowerStr (raw.getD []))) = true) := by
    simp only [check_path]
    split
    · simp_all
    · split
      · simp_all
      · simp_all
  refine ⟨?_, ?_, rfl⟩
  · rw [hmain, strContains_iff]
    constructor
    · rintro (h | h)
      · exact Or.inl h
      · right
        rw [List.any_eq_true] at h
        obtain ⟨b, hb, hpre⟩ := h
        exact ⟨b, hb, (isPrefixOf_iff_exists _ _).mp hpre⟩
    · rintro (h | ⟨b, hb, t, ht⟩)
      · exact Or.inl h
      · right
        rw [List.any_eq_true]
        exact ⟨b, hb, (isPrefixOf_iff_exists _ _).mpr ⟨t, ht⟩⟩
  · intro h
    rcases check_path_cases raw with h0 | h0
    · exact h0
    · exact absurd h0 h

/-- Witness for C6 at a concrete traversal path. -/
theorem check_path_spec_witness :
    (check_path (some (("/a/../b").data)) = some 403 ↔
      ((∃ s t, (some (("/a/../b").data)).getD [] = s ++ PATH_TRAVERSAL ++ t)
        ∨ ∃ b ∈ BLOCKED_PATHS, ∃ t,
            toLowerStr ((some (("/a/../b").data)).getD []) = b ++ t))
    ∧ (check_path (some (("/a/../b").data)) ≠ some 403 →
        check_path (some (("/a/../b").data)) = none)
    ∧ check_path none = check_path (some []) :=
  check_path_spec (some (("/a/../b").data))

/-- C8: `logging` performs exactly one `http_requests_total` increment and
exactly one `http_request_duration_seconds` observation, with the identical
`(status, method, path)` label tuple, whose status component is the decimal
rendering of the status actually written (`0` when none was written). -/
theorem logging_metrics_once (m : MetricsState) (response_written : Option Nat)
    (ctxMethod ctxPath : Str) (duration : Nat) :
    ∃ label : Str × Str × Str,
      label = (natToDecStr (response_written.getD 0), ctxMethod, ctxPath)
      ∧ (logging m response_written ctxMethod ctxPath duration).counters
          = m.counters ++ [label]
      ∧ (logging m response_written ctxMethod ctxPath duration).observations
          = m.observations ++ [(label, duration)] :=
  ⟨_, rfl, rfl, rfl⟩

/-- C5: for every non-intercepted request the predicates run in the fixed
order rate-limit, path, user-agent, bearer-token; the first denial fixes the
status (429, 403, 403, 401 respectively) and cuts off every later predicate
(the `evaluated` trace stops at the denier); the request is forwarded to
upstream selection exactly when all four pass. -/
theorem predicate_order_spec (snap : Snapshot) (jv : Str → Str → Bool)
    (enc : Option Str) (now : Nat) (store : Str → List Nat) (r : Request)
    (hni : ¬(r.rawPath.getD [] = ("/metrics").data ∧ r.method = ("GET").data)) :
    ((request_filter snap jv enc now store r).outcome = .forwarded ↔
      ((check_rate_limit snap.rate_limit_per_second now (store (clientIp r))).code = none
        ∧ check_path r.rawPath = none
        ∧ check_user_agent r.userAgent = none
        ∧ check_jwt jv snap.jwt_secret r.authHeader = none))
    ∧ ((check_rate_limit snap.rate_limit_per_second now (store (clientIp r))).code ≠ none →
        (request_filter snap jv enc now store r).outcome = .denied 429
          ∧ (request_filter snap jv enc now store r).evaluated = [.rl])
    ∧ ((check_rate_limit snap.rate_limit_per_second now (store (clientIp r))).code = none →
        check_path r.rawPath ≠ none →
        (request_filter snap jv enc now store r).outcome = .denied 403
          ∧ (request_filter snap jv enc now store r).evaluated = [.rl, .path])
    ∧ ((check_rate_limit snap.rate_limit_per_second now (store (clientIp r))).code = none →
        check_path r.rawPath = none → check_user_agent r.userAgent ≠ none →
        (request_filter snap jv enc now store r).outcome = .denied 403
          ∧ (request_filter snap jv enc now store r).evaluated = [.rl, .path, .ua])
    ∧ ((check_rate_limit snap.rate_limit_per_second now (store (clientIp r))).code = none →
        check_path r.rawPath = none → check_user_agent r.userAgent = none →
        check_jwt jv snap.jwt_secret r.authHeader ≠ none →
        (request_filter snap jv enc now store r).outcome = .denied 401
          ∧ (request_filter snap jv enc now store r).evaluated = [.rl, .path, .ua, .jwt]) := by
  rcases check_rate_limit_code_cases snap.rate_limit_per_second now (store (clientIp r))
      with h1 | h1 <;>
    rcases check_path_cases r.rawPath with h2 | h2 <;>
    rcases check_user_agent_cases r.userAgent with h3 | h3 <;>
    rcases check_jwt_cases jv snap.jwt_secret r.authHeader with h4 | h4 <;>
    (simp only [request_filter]; rw [if_neg hni]; simp_all)

/-- Witness for C5: `reqPlain` carries no `Authorization` header, so with an
empty store it passes rate limit, path and user agent and is denied 401 by
the bearer-token predicate, the last in the order. -/
theorem predicate_order_spec_witness :
    (request_filter snapW jvFalse none 0 storeEmpty reqPlain).outcome = .denied 401
      ∧ (request_filter snapW jvFalse none 0 storeEmpty reqPlain).evaluated
          = [.rl, .path, .ua, .jwt] :=
  (predicate_order_spec snapW jvFalse none 0 storeEmpty reqPlain
    (by decide)).2.2.2.2 (by decide) (by decide) (by decide) (by decide)

/-- C7: a request is intercepted locally exactly when its method is GET and
its path is "/metrics".  On interception (with the metrics encoder
succeeding) the result is a 200 response with Content-Type `text/plain` and
the encoded metrics body, with zero `security.load()` calls, no predicate
evaluated and the rate-limit store untouched — and the outcome is not
`forwarded`, so no upstream peer is selected (pingora calls `upstream_peer`
only on `Ok(false)`).  Any other method on "/metrics" (and any other path)
falls through to the predicate chain: one snapshot load and a nonempty
predicate trace. -/
theorem metrics_interception_spec (snap : Snapshot) (jv : Str → Str → Bool)
    (now : Nat) (store : Str → List Nat) (r : Request) :
    (∀ body : Str,
      r.rawPath.getD [] = ("/metrics").data → r.method = ("GET").data →
      request_filter snap jv (some body) now store r =
        ⟨.intercepted 200 ("text/plain").data body, 0, none, [], store⟩)
    ∧ (∀ enc : Option Str,
        ¬(r.rawPath.getD [] = ("/metrics").data ∧ r.method = ("GET").data) →
        (request_filter snap jv enc now store r).outcome.isIntercepted = false
        ∧ (request_filter snap jv enc now store r).outcome ≠ .errored
        ∧ (request_filter snap jv enc now store r).snapshotLoads = 1
        ∧ (request_filter snap jv enc now store r).evaluated ≠ []) := by
  constructor
  · intro body h1 h2
    simp [request_filter, h1, h2]
  · intro enc hni
    rcases check_rate_limit_code_cases snap.rate_limit_per_second now (store (clientIp r))
        with h1 | h1 <;>
      rcases check_path_cases r.rawPath with h2 | h2 <;>
      rcases check_user_agent_cases r.userAgent with h3 | h3 <;>
      rcases check_jwt_cases jv snap.jwt_secret r.authHeader with h4 | h4 <;>
      (refine ⟨?_, ?_, ?_, ?_⟩ <;>
        (simp only [request_filter]; rw [if_neg hni]; simp_all [Outcome.isIntercepted]))

/-- Witness for C7: a concrete `GET /metrics` scrape is served locally with
status 200, `text/plain`, the encoded body, no snapshot load, no predicate
run and an untouched store. -/
theorem metrics_interception_spec_witness :
    request_filter snapW jvFalse (some (("# HELP").data)) 0 storeEmpty reqMetrics =
      ⟨.intercepted 200 ("text/plain").data (("# HELP").data), 0, none, [],
        storeEmpty⟩ :=
  (metrics_interception_spec snapW jvFalse 0 storeEmpty reqMetrics).1
    (("# HELP").data) (by decide) (by decide)

/-- C9: when a non-intercepted request passes the rate-limit check, the
current instant is appended to the client's sliding-window entry at that
moment — before the path, user-agent and bearer-token predicates run — so a
request later denied by one of those predicates consumes one unit of the
client's budget exactly as a forwarded request does (the store update is the
same in every such case). -/
theorem predicate_denied_consumes_budget (snap : Snapshot) (jv : Str → Str → Bool)
    (enc : Option Str) (now : Nat) (store : Str → List Nat) (r : Request)
    (hni : ¬(r.rawPath.getD [] = ("/metrics").data ∧ r.method = ("GET").data))
    (hrl : (check_rate_limit snap.rate_limit_per_second now
        (store (clientIp r))).code = none) :
    (request_filter snap jv enc now store r).store (clientIp r)
      = retainRecent now (store (clientIp r)) ++ [now] := by
  have h := check_rate_limit_ok_eq snap.rate_limit_per_second now
    (store (clientIp r)) hrl
  rcases check_path_cases r.rawPath with h2 | h2 <;>
    rcases check_user_agent_cases r.userAgent with h3 | h3 <;>
    rcases check_jwt_cases jv snap.jwt_secret r.authHeader with h4 | h4 <;>
    (simp only [request_filter]; rw [if_neg hni]; simp_all)

/-- Witness for C9: `reqPlain` passes the rate limit on an empty store, is
denied 401 by the bearer-token predicate, and its client entry nevertheless
holds the new timestamp. -/
theorem predicate_denied_consumes_budget_witness :
    (request_filter snapW jvFalse none 0 storeEmpty reqPlain).store (clientIp reqPlain)
      = retainRecent 0 (storeEmpty (clientIp reqPlain)) ++ [0] :=
  predicate_denied_consumes_budget snapW jvFalse none 0 storeEmpty reqPlain
    (by decide) (by decide)

/-- C10: with a configured ceiling of 0, `check_rate_limit` denies 429 on
every call and never appends a timestamp (the entry only gets pruned), so
every non-intercepted request — whatever its path, headers or client — is
denied with 429 after evaluating only the rate-limit predicate, and no
client entry ever receives a timestamp. -/
theorem zero_ceiling_denies_all (snap : Snapshot) (jv : Str → Str → Bool)
    (enc : Option Str) (now : Nat) (store : Str → List Nat) (r : Request)
    (h0 : snap.rate_limit_per_second = 0)
    (hni : ¬(r.rawPath.getD [] = ("/metrics").data ∧ r.method = ("GET").data)) :
    (∀ ts : List Nat, check_rate_limit 0 now ts = ⟨some 429, retainRecent now ts⟩)
    ∧ (request_filter snap jv enc now store r).outcome = .denied 429
    ∧ (request_filter snap jv enc now store r).evaluated = [.rl]
    ∧ (request_filter snap jv enc now store r).store (clientIp r)
        = retainRecent now (store (clientIp r))
    ∧ (∀ c, c ≠ clientIp r →
        (request_filter snap jv enc now store r).store c = store c) := by
  have hall : ∀ ts : List Nat,
      check_rate_limit 0 now ts = ⟨some 429, retainRecent now ts⟩ := by
    intro ts
    simp only [check_rate_limit]
    split
    · rfl
    · omega
  have hd : check_rate_limit snap.rate_limit_per_second now (store (clientIp r))
      = ⟨some 429, retainRecent now (store (clientIp r))⟩ := by
    rw [h0]
    exact hall _
  refine ⟨hall, ?_, ?_, ?_, ?_⟩ <;>
    (simp only [request_filter]; rw [if_neg hni]; simp_all)

/-- Witness for C10: with ceiling 0 and an empty store, `reqPlain` is denied
429 by the rate-limit predicate alone. -/
theorem zero_ceiling_denies_all_witness :
    (request_filter snap0 jvFalse none 0 storeEmpty reqPlain).outcome = .denied 429
      ∧ (request_filter snap0 jvFalse none 0 storeEmpty reqPlain).evaluated
          = [.rl] :=
  ⟨(zero_ceiling_denies_all snap0 jvFalse none 0 storeEmpty reqPlain rfl
      (by decide)).2.1,
    (zero_ceiling_denies_all snap0 jvFalse none 0 storeEmpty reqPlain rfl
      (by decide)).2.2.1⟩

/-- C1 (counterexample): `response_filter` performs its own
`self.security.load()` (`proxy.rs` lines 162-164, "We load the snapshot
again"), so with a reload published between the two stages (`cellEx`:
`snapA` at instant 0, `snapB` afterwards) the snapshot read at
response-header injection differs from the one the predicates read —
contradicting the claim that every later stage of the request reads the
same Snapshot value. -/
theorem snapshot_reload_changes_response_stage :
    response_filter_load cellEx 1 ≠ request_filter_load cellEx 0 := by
  decide

/-- C1 (amended): within `request_filter` the snapshot is loaded exactly
once, before the predicates, and all predicate evaluation of the request
uses that one value; but `response_filter` performs a second load at its
own instant, so a reload between predicate evaluation and response-header
injection does change the snapshot the header-injection stage reads.  The
injected header set, however, is a constant independent of the snapshot, so
the response headers produced equal those the predicate-stage snapshot
would have produced. -/
theorem snapshot_loaded_per_stage (cell : Nat → Snapshot) (t1 t2 : Nat)
    (jv : Str → Str → Bool) (enc : Option Str) (now : Nat)
    (store : Str → List Nat) (r : Request) (resp : List (Str × Str))
    (hni : ¬(r.rawPath.getD [] = ("/metrics").data ∧ r.method = ("GET").data)) :
    (request_filter (request_filter_load cell t1) jv enc now store r).snapshotLoads = 1
    ∧ (request_filter (request_filter_load cell t1) jv enc now store r).snapUsed
        = some (request_filter_load cell t1)
    ∧ response_filter cell t2 resp
        = inject_security_headers (request_filter_load cell t1) resp := by
  refine ⟨?_, ?_, rfl⟩ <;>
    (rcases check_rate_limit_code_cases (request_filter_load cell t1).rate_limit_per_second
        now (store (clientIp r)) with h1 | h1 <;>
      rcases check_path_cases r.rawPath with h2 | h2 <;>
      rcases check_user_agent_cases r.userAgent with h3 | h3 <;>
      rcases check_jwt_cases jv (request_filter_load cell t1).jwt_secret r.authHeader
        with h4 | h4 <;>
      (simp only [request_filter]; rw [if_neg hni]; simp_all))

/-- Witness for the amended C1 on the concrete reloaded history `cellEx`. -/
theorem snapshot_loaded_per_stage_witness :
    (request_filter (request_filter_load cellEx 0) jvFalse none 0 storeEmpty
        reqPlain).snapshotLoads = 1
    ∧ (request_filter (request_filter_load cellEx 0) jvFalse none 0 storeEmpty
        reqPlain).snapUsed = some (request_filter_load cellEx 0)
    ∧ response_filter cellEx 1 []
        = inject_security_headers (request_filter_load cellEx 0) [] :=
  snapshot_loaded_per_stage cellEx 0 1 jvFalse none 0 storeEmpty reqPlain []
    (by decide)

/-- C2 (counterexample): a successful reload does not preserve the
rate-limit store — `preReloadLayer` has one retained timestamp for client
`10.0.0.1:5000`, and after `reloadApply` with the valid `reloadedConfig`
that client's entry is the empty list, not the same mapping. -/
theorem reload_store_not_preserved :
    (reloadApply preReloadLayer (.ok reloadedConfig)).rate_limit_store
        (("10.0.0.1:5000").data)
      ≠ preReloadLayer.rate_limit_store (("10.0.0.1:5000").data) := by
  simp [reloadApply, SecurityLayer.new, preReloadLayer]

/-- C2 (amended): a successful reload replaces the whole `SecurityLayer`:
it installs the new ceiling and token key AND recreates the rate-limit
store empty (`SecurityLayer::new` builds a fresh `DashMap`), so every
client's sliding-window entry is discarded and pre-reload timestamps no
longer count against the ceiling.  A failed reload keeps the current
layer unchanged. -/
theorem reload_resets_rate_limit_store (cur : SecurityLayerState)
    (c : GatewayConfig) :
    reloadApply cur (.ok c) = SecurityLayer.new c.rate_limit_per_second c.jwt_secret
    ∧ (∀ client, (reloadApply cur (.ok c)).rate_limit_store client = [])
    ∧ (reloadApply cur (.ok c)).rate_limit_per_second = c.rate_limit_per_second
    ∧ (reloadApply cur (.ok c)).jwt_secret = c.jwt_secret
    ∧ (∀ e, reloadApply cur (.error e) = cur) :=
  ⟨rfl, fun _ => rfl, rfl, rfl, fun _ => rfl⟩

/-- C3 (code bug): `GatewayConfig::validate` implements exactly the three
checks the claim names, but `main` never calls it — neither at startup nor
in the SIGHUP reload thread.  At the concrete `invalidConfig` (zero rate
limit, valid otherwise): `validate` rejects it, yet startup proceeds to
serve with `SecurityLayer::new(0, secret)` instead of exiting non-zero,
and a reload publishes the invalid configuration instead of retaining the
old snapshot.  The served ceiling 0 then denies every rate-limit check
with 429. -/
theorem invalid_config_accepted :
    invalidConfig.validate
      = .error (.validation ("rate_limit_per_second must be greater than 0").data)
    ∧ startup (.ok invalidConfig)
        = .serving (SecurityLayer.new 0 (("supersecret").data))
    ∧ reloadApply (SecurityLayer.new 5 (("old-secret").data)) (.ok invalidConfig)
        = SecurityLayer.new 0 (("supersecret").data)
    ∧ (∀ now ts,
        (check_rate_limit invalidConfig.rate_limit_per_second now ts).code
          = some 429) := by
  refine ⟨rfl, rfl, rfl, ?_⟩
  intro now ts
  simp only [invalidConfig, check_rate_limit]
  split
  · rfl
  · omega
